import Mathlib

/-!
Verification of the FramePickr-AI scoring pipeline.

Shallow embedding of `backend/model/scoring.py` and `backend/app.py`.
Pixel-level OpenCV / PIL primitives (imdecode, cvtColor, Laplacian,
detectMultiScale, crops, JPEG re-encoding) are modelled as fields of an
environment structure: they are pure deterministic functions supplied as
parameters, exactly as the Python code treats them as opaque library calls.
Float arithmetic is idealised as real arithmetic.
-/

namespace FramePickr

/-- Raw byte strings (Python `bytes`). Only length and identity matter. -/
abbrev Bytes := List Nat

/-- A decoded colour image buffer (opaque token; produced by `cv2.imdecode`). -/
abbrev Img := Nat

/-- A single-channel grayscale buffer (produced by `cv2.cvtColor`). -/
abbrev Gray := Nat

/-- A detection rectangle `(x, y, w, h)` as returned by `detectMultiScale`. -/
abbrev Rect := Nat × Nat × Nat × Nat

/-- Parameters of one `detectMultiScale` call:
`scaleFactor`, `minNeighbors`, `minSize`. -/
structure DetectParams where
  scaleFactor : ℚ
  minNeighbors : ℕ
  minSize : ℕ × ℕ
deriving DecidableEq

/-- A loaded cascade classifier (`cv2.CascadeClassifier` that is non-empty):
its only observable behaviour is `detectMultiScale` on a (sub)image. -/
structure Cascade where
  detect : Gray → DetectParams → List Rect

/-- Environment of opaque OpenCV primitives used by `scoring.py`.
`load path = none` models a `cv2.CascadeClassifier` that comes back empty
(missing/corrupt cascade file at `path`). -/
structure Env where
  decode : Bytes → Option Img
  toGray : Img → Gray
  laplacian : Gray → Gray
  varOf : Gray → ℝ
  meanOf : Gray → ℝ
  load : String → Option Cascade
  crop : Gray → Rect → Gray

/-! ## scoring.py: weights and cascade filenames (lines 7-15) -/

/-- `SHARPNESS_WEIGHT = 1.0` -/
def SHARPNESS_WEIGHT : ℝ := 1.0
/-- `BRIGHTNESS_WEIGHT = 0.005` -/
def BRIGHTNESS_WEIGHT : ℝ := 0.005
/-- `FACES_WEIGHT = 1.0` -/
def FACES_WEIGHT : ℝ := 1.0
/-- `EYES_OPEN_WEIGHT = 1.5` -/
def EYES_OPEN_WEIGHT : ℝ := 1.5
/-- `SMILE_WEIGHT = 2.0` -/
def SMILE_WEIGHT : ℝ := 2.0

/-- `EYE_CASCADE = "haarcascade_eye.xml"` -/
def EYE_CASCADE : String := "haarcascade_eye.xml"
/-- `SMILE_CASCADE = "haarcascade_smile.xml"` -/
def SMILE_CASCADE : String := "haarcascade_smile.xml"

/-! ## Rounding

Python's `round(x, 3)` idealised over the reals: round `1000*x` to the
nearest integer and divide back. -/

/-- `round(x, 3)` — three-decimal rounding over ℝ. -/
noncomputable def round3 (x : ℝ) : ℝ := (round (1000 * x) : ℤ) / 1000

/-! ## scoring.py: the score composition (lines 94-117 of `compute_score`)

The straight-line tail of `compute_score` after decode, metrics and
detection have produced `sharpness`, `brightness`, `faces`, `eyes_open`,
`smiles`.  The incremental `score += ...` statements are mirrored by the
`let` chain. -/

/-- The structured result dict built at lines 110-117 of `scoring.py`. -/
structure Breakdown where
  score : ℝ
  sharpness : ℝ
  brightness : ℝ
  faces : ℕ
  eyes_open : ℕ
  smiles : ℕ

/-- Lines 94-117 of `scoring.py`: normalise, weight, sum, round. -/
noncomputable def composeBreakdown (sharpness brightness : ℝ)
    (face_count eyes_open smiles : ℕ) : Breakdown :=
  let norm_sharp := sharpness / (sharpness + 50.0)
  let norm_brightness := 1.0 / (1.0 + Real.exp (-0.02 * (brightness - 100)))
  let score0 : ℝ := 0.0
  let score1 := score0 + SHARPNESS_WEIGHT * norm_sharp
  let score2 := score1 + BRIGHTNESS_WEIGHT * norm_brightness * 100.0
  let score3 := score2 + FACES_WEIGHT * (face_count : ℝ)
  let score4 := score3 + EYES_OPEN_WEIGHT * ((eyes_open : ℝ) / 2.0)
  let score5 := score4 + SMILE_WEIGHT * (smiles : ℝ)
  { score := round3 score5
    sharpness := round3 sharpness
    brightness := round3 brightness
    faces := face_count
    eyes_open := eyes_open
    smiles := smiles }

/-- The normalised-sharpness term `sharpness / (sharpness + 50.0)`. -/
noncomputable def normSharp (sharpness : ℝ) : ℝ := sharpness / (sharpness + 50.0)

/-- The brightness sigmoid `1.0 / (1.0 + exp(-0.02*(brightness-100)))`. -/
noncomputable def normBrightness (brightness : ℝ) : ℝ :=
  1.0 / (1.0 + Real.exp (-0.02 * (brightness - 100)))

/-- The score formula as the spec sentence states it: each of the five terms
multiplied by its fixed configuration weight and nothing else (claim C1's
reading; to be compared with `composeBreakdown`). -/
noncomputable def specClaimedScore (sharpness brightness : ℝ)
    (face_count eyes_open smiles : ℕ) : ℝ :=
  SHARPNESS_WEIGHT * normSharp sharpness
    + BRIGHTNESS_WEIGHT * normBrightness brightness
    + FACES_WEIGHT * (face_count : ℝ)
    + EYES_OPEN_WEIGHT * ((eyes_open : ℝ) / 2.0)
    + SMILE_WEIGHT * (smiles : ℝ)

/-! ## scoring.py: metric helpers, cascade loading, detection, compute_score -/

/-- `compute_sharpness(gray)` (lines 23-26): variance of the Laplacian. -/
def compute_sharpness (env : Env) (gray : Gray) : ℝ :=
  env.varOf (env.laplacian gray)

/-- `compute_brightness(img)` (lines 28-31): mean of the grayscale image. -/
def compute_brightness (env : Env) (img : Img) : ℝ :=
  env.meanOf (env.toGray img)

/-- `_load_cascade(path)` (lines 17-21): raises `RuntimeError` when the
classifier at `path` comes back empty, modelled by `Except.error`. -/
def load_cascade (env : Env) (path : String) : Except String Cascade :=
  match env.load path with
  | some c => .ok c
  | none => .error ("Failed to load cascade: " ++ path)

/-- `detect_faces_and_features(img, face_cascade, model_dir)` (lines 33-66):
face detection on the grayscale image, then a per-call load of the eye and
smile cascades, then per-face eye/smile detection on the cropped region of
interest.  A cascade-load failure raises out of the function. -/
def detect_faces_and_features (env : Env) (img : Img) (face_cascade : Cascade)
    (model_dir : String) : Except String (List Rect × ℕ × ℕ) :=
  let gray := env.toGray img
  let faces := face_cascade.detect gray ⟨1.1, 5, (30, 30)⟩
  let eye_path := model_dir ++ "/" ++ EYE_CASCADE
  let smile_path := model_dir ++ "/" ++ SMILE_CASCADE
  match load_cascade env eye_path with
  | .error e => .error e
  | .ok eye_cascade =>
    match load_cascade env smile_path with
    | .error e => .error e
    | .ok smile_cascade =>
      let counts := faces.foldl
        (fun (acc : ℕ × ℕ) r =>
          let roi_gray := env.crop gray r
          let eyes := eye_cascade.detect roi_gray ⟨1.1, 3, (10, 10)⟩
          let smiles_found := smile_cascade.detect roi_gray ⟨1.7, 22, (15, 15)⟩
          (acc.1 + eyes.length, acc.2 + smiles_found.length))
        (0, 0)
      .ok (faces, counts.1, counts.2)

/-- What `compute_score` hands back as a Python value: either the
`{"error": ...}` dict or the breakdown dict. -/
inductive ScoreResult where
  | err (msg : String)
  | ok (b : Breakdown)

/-- `compute_score(image_bytes, face_cascade, model_dir)` (lines 68-117):
decode (returning the `cannot_decode_image` error value on failure),
compute metrics, detect, compose.  An exception escaping `compute_score`
(only the cascade loads raise) is the `Except.error` channel. -/
noncomputable def compute_score (env : Env) (image_bytes : Bytes)
    (face_cascade : Cascade) (model_dir : String) : Except String ScoreResult :=
  match env.decode image_bytes with
  | none => .ok (.err "cannot_decode_image")
  | some img =>
    let gray := env.toGray img
    let sharpness := compute_sharpness env gray
    let brightness := compute_brightness env img
    match detect_faces_and_features env img face_cascade model_dir with
    | .error e => .error e
    | .ok (faces, eyes_open, smiles) =>
      .ok (.ok (composeBreakdown sharpness brightness faces.length eyes_open smiles))

/-! ## app.py: startup cascade loading (lines 32-36 and 97-120)

`load` abstracts "resolve the candidate path for this cascade filename and
construct a non-empty `cv2.CascadeClassifier` from it"; `none` means every
candidate failed or came back empty (the loop then leaves `cascades[key]`
as `None` and only prints an error). -/

/-- `REQUIRED_CASCADES["face"]`. -/
def FACE_CASCADE_FILE : String := "haarcascade_frontalface_default.xml"

/-- The `cascades` dict after the loading loop (lines 97-116). -/
structure Cascades where
  face : Option Cascade
  eye : Option Cascade
  smile : Option Cascade

/-- Lines 97-116: each of the three cascades is loaded independently and a
failure is recorded as `none`. -/
def load_cascades (load : String → Option Cascade) : Cascades :=
  { face := load FACE_CASCADE_FILE
    eye := load EYE_CASCADE
    smile := load SMILE_CASCADE }

/-- Lines 97-120: the whole startup sequence — load the three cascades,
then abort (raise `RuntimeError`) if and only if the face cascade is
missing. -/
def startup (load : String → Option Cascade) : Except String Cascades :=
  let cs := load_cascades load
  match cs.face with
  | none => .error "Failed to load face Haarcascade. Cannot continue. Check model files in /app/model."
  | some _ => .ok cs

/-! ## app.py: compression (lines 180-198)

`Image.open(...).convert("RGB")` and `img.save(..., quality=q)` are opaque
PIL calls; `none` models the call raising.  Any exception inside the `try`
returns the original bytes. -/

/-- A PIL image handle produced by `Image.open(...).convert("RGB")`. -/
abbrev PImg := Nat

/-- Opaque PIL primitives used by `compress_image_bytes_if_needed`. -/
structure PilEnv where
  openRGB : Bytes → Option PImg
  saveJpeg : PImg → ℕ → Option Bytes

/-- The `while quality >= 30` loop of lines 188-195: re-encode at the
current quality, return the data once it fits, else drop quality by 10;
after the loop return the last encoding.  `none` = an exception escaped
the loop body. -/
def compressLoop (penv : PilEnv) (img : PImg) (max_kb : ℕ) :
    ℕ → Bytes → Option Bytes
  | quality, last_data =>
    if _ : 30 ≤ quality then
      match penv.saveJpeg img quality with
      | none => none
      | some data =>
        if data.length ≤ max_kb * 1024 then some data
        else compressLoop penv img max_kb (quality - 10) data
    else some last_data
termination_by quality _ => quality
decreasing_by omega

/-- `compress_image_bytes_if_needed(image_bytes, max_kb)` (lines 180-198):
identity when the size already fits, otherwise re-encode at decreasing
JPEG quality; any exception returns the original bytes. -/
def compress_image_bytes_if_needed (penv : PilEnv) (image_bytes : Bytes)
    (max_kb : ℕ) : Bytes :=
  if image_bytes.length ≤ max_kb * 1024 then image_bytes
  else
    match penv.openRGB image_bytes with
    | none => image_bytes
    | some img =>
      match compressLoop penv img max_kb 85 image_bytes with
      | none => image_bytes
      | some data => data

/-! ## app.py: safe scoring and the batch loop (lines 200-236) -/

/-- `safe_compute_score(image_bytes)` (lines 200-205): call `compute_score`
with the startup face cascade; any exception becomes the
`{"error": "scoring_failed"}` dict. -/
noncomputable def safe_compute_score (env : Env) (face_cascade : Cascade)
    (model_dir : String) (image_bytes : Bytes) : ScoreResult :=
  match compute_score env image_bytes face_cascade model_dir with
  | .ok r => r
  | .error _ => .err "scoring_failed"

/-- One entry of the endpoint's `results` list: the result dict with the
`"filename"` key attached (lines 234-236). -/
structure TaggedResult where
  filename : String
  result : ScoreResult

/-- Step 1 of `score_and_save` for a single uploaded file (lines 229-236):
remember the original bytes, score the (possibly compressed) bytes, tag
the result with the filename. -/
noncomputable def score_one (env : Env) (penv : PilEnv) (face_cascade : Cascade)
    (model_dir : String) (f : String × Bytes) : TaggedResult :=
  { filename := f.1
    result := safe_compute_score env face_cascade model_dir
      (compress_image_bytes_if_needed penv f.2 700) }

/-- The whole Step-1 loop of `score_and_save` (lines 225-236), with its two
accumulators `results` and `file_bytes_list`. -/
noncomputable def score_batch (env : Env) (penv : PilEnv) (face_cascade : Cascade)
    (model_dir : String) (files : List (String × Bytes)) :
    List TaggedResult × List (String × Bytes) :=
  files.foldl
    (fun acc f =>
      let contents := f.2
      let file_bytes_list := acc.2 ++ [(f.1, contents)]
      let scoring_bytes := compress_image_bytes_if_needed penv contents 700
      let res := safe_compute_score env face_cascade model_dir scoring_bytes
      (acc.1 ++ [{ filename := f.1, result := res }], file_bytes_list))
    ([], [])

/-- Line 246: `next((b for (name, b) in file_bytes_list if name == fname), None)`
— the bytes of the first uploaded file whose name equals `fname`. -/
def find_original_bytes (fname : String) : List (String × Bytes) → Option Bytes
  | [] => none
  | (name, b) :: rest =>
    if name = fname then some b else find_original_bytes fname rest

/-! ## app.py: the ranking step (lines 239-241)

`scored = [r for r in results if isinstance(r, dict) and "score" in r]`
`sorted_results = sorted(scored, key=lambda x: x["score"], reverse=True)`
`top = sorted_results[:top_n]`

The result dicts are abstracted to records with an optional score (the
error dicts have no `"score"` key); scores are modelled as rationals so
that the comparison is decidable. -/

/-- A result dict as seen by the ranking step: present score or none. -/
structure RankItem where
  filename : String
  score : Option ℚ
deriving DecidableEq

/-- `isinstance(r, dict) and "score" in r`. -/
def hasScore (r : RankItem) : Bool := r.score.isSome

/-- The sort key `x["score"]` (only applied to items that have one). -/
def scoreKey (r : RankItem) : ℚ := r.score.getD 0

/-- The comparison used by `sorted(..., reverse=True)`: `a` may come
before `b` when `b`'s key is at most `a`'s. -/
def rankLE (a b : RankItem) : Bool := decide (scoreKey b ≤ scoreKey a)

/-- Lines 239-241: filter to scored results, stable-sort by score
descending, truncate to `top_n`. -/
def rank (results : List RankItem) (top_n : ℕ) : List RankItem :=
  (((results.filter hasScore).mergeSort rankLE).take top_n)

/-! ## Concrete instantiations used to exercise the theorems -/

/-- A loaded cascade that detects nothing on any image. -/
def c0 : Cascade := ⟨fun _ _ => []⟩

/-- An environment whose every primitive succeeds and reports zero metrics. -/
def envOk : Env :=
  { decode := fun _ => some 0
    toGray := fun g => g
    laplacian := fun g => g
    varOf := fun _ => 0
    meanOf := fun _ => 0
    load := fun _ => some c0
    crop := fun g _ => g }

/-- An environment whose decoder rejects every byte string. -/
def envFail : Env :=
  { decode := fun _ => none
    toGray := fun g => g
    laplacian := fun g => g
    varOf := fun _ => 0
    meanOf := fun _ => 0
    load := fun _ => some c0
    crop := fun g _ => g }

/-- An environment that decodes but whose cascade files are all missing. -/
def envNoEye : Env :=
  { decode := fun _ => some 0
    toGray := fun g => g
    laplacian := fun g => g
    varOf := fun _ => 0
    meanOf := fun _ => 0
    load := fun _ => none
    crop := fun g _ => g }

/-- A loader that only finds the face cascade file. -/
def load0 : String → Option Cascade :=
  fun s => if s = FACE_CASCADE_FILE then some c0 else none

/-- A loader that finds no cascade file at all. -/
def loadNone : String → Option Cascade := fun _ => none

/-- An environment that decodes but only the face cascade file exists. -/
def envLoad0 : Env :=
  { decode := fun _ => some 0
    toGray := fun g => g
    laplacian := fun g => g
    varOf := fun _ => 0
    meanOf := fun _ => 0
    load := load0
    crop := fun g _ => g }

/-- A PIL environment where `Image.open` raises on every input. -/
def penvFail : PilEnv :=
  { openRGB := fun _ => none
    saveJpeg := fun _ _ => none }

/-- A concrete mixed result list: two scored items and one failed item. -/
def rs0 : List RankItem :=
  [{ filename := "a", score := some 1 },
   { filename := "b", score := none },
   { filename := "c", score := some 2 }]

/-! ## Theorems -/

/-- Three-decimal rounding is idempotent. -/
theorem round3_round3 (x : ℝ) : round3 (round3 x) = round3 x := by
  unfold round3
  have h : (1000 : ℝ) * ((round (1000 * x) : ℤ) / 1000) = (round (1000 * x) : ℤ) := by
    field_simp
  rw [h, round_intCast]

/-- A natural number is unchanged by three-decimal rounding. -/
theorem round3_natCast (n : ℕ) : round3 (n : ℝ) = n := by
  unfold round3
  have h : (1000 : ℝ) * (n : ℝ) = ((1000 * n : ℕ) : ℝ) := by push_cast; ring
  rw [h, round_natCast]
  push_cast
  field_simp

/-- Any successful `compute_score` output is `composeBreakdown` applied to
the image's raw metrics and detection counts. -/
theorem compute_score_ok_shape (env : Env) (bs : Bytes) (fc : Cascade)
    (mdir : String) (br : Breakdown)
    (h : compute_score env bs fc mdir = .ok (.ok br)) :
    ∃ s b f e m, br = composeBreakdown s b f e m := by
  unfold compute_score at h
  cases hd : env.decode bs with
  | none => rw [hd] at h; simp at h
  | some img =>
    rw [hd] at h
    cases hdet : detect_faces_and_features env img fc mdir with
    | error e => simp [hdet] at h
    | ok t =>
      obtain ⟨faces, eyes_open, smiles⟩ := t
      simp [hdet] at h
      exact ⟨_, _, _, _, _, h.symm⟩


/-- The brightness sigmoid at the well-exposed midpoint is exactly 1/2. -/
theorem normBrightness_hundred : normBrightness 100 = 1 / 2 := by
  unfold normBrightness
  norm_num [Real.exp_zero]

/-- The score field of `composeBreakdown`, written as a closed-form sum. -/
theorem composeBreakdown_score (s b : ℝ) (f e m : ℕ) :
    (composeBreakdown s b f e m).score
      = round3 (SHARPNESS_WEIGHT * normSharp s
          + (BRIGHTNESS_WEIGHT * 100.0) * normBrightness b
          + FACES_WEIGHT * (f : ℝ)
          + EYES_OPEN_WEIGHT * ((e : ℝ) / 2.0)
          + SMILE_WEIGHT * (m : ℝ)) := by
  simp only [composeBreakdown, normSharp, normBrightness]
  congr 1
  ring

/-- C1 (counterexample): at sharpness 0, brightness 100 and zero counts the
code's composed score is 1/4 (the brightness term is
`BRIGHTNESS_WEIGHT * norm_brightness * 100.0`), while the plain weighted
sum of the five terms by their configuration weights is 1/400 — so the
claimed formula disagrees with the code, whether or not it is rounded. -/
theorem C1_counterexample :
    (composeBreakdown 0 100 0 0 0).score ≠ specClaimedScore 0 100 0 0 0
      ∧ (composeBreakdown 0 100 0 0 0).score
          ≠ round3 (specClaimedScore 0 100 0 0 0) := by
  have hb : normBrightness 100 = 1 / 2 := normBrightness_hundred
  have hs : normSharp 0 = 0 := by unfold normSharp; norm_num
  have hcode : (composeBreakdown 0 100 0 0 0).score = 1 / 4 := by
    rw [composeBreakdown_score, hb, hs]
    unfold SHARPNESS_WEIGHT BRIGHTNESS_WEIGHT FACES_WEIGHT EYES_OPEN_WEIGHT
      SMILE_WEIGHT round3
    norm_num [round_eq]
  have hspec : specClaimedScore 0 100 0 0 0 = 1 / 400 := by
    unfold specClaimedScore SHARPNESS_WEIGHT BRIGHTNESS_WEIGHT FACES_WEIGHT
      EYES_OPEN_WEIGHT SMILE_WEIGHT
    rw [hb, hs]
    norm_num
  have hround : round3 (1 / 400 : ℝ) = 3 / 1000 := by
    unfold round3
    norm_num [round_eq]
  rw [hcode, hspec, hround]
  norm_num

/-- C1 (amended): for every successfully decoded image the composed score
is the three-decimal rounding of the weighted sum of normalized sharpness
`s/(s+50)`, normalized brightness (sigmoid centered at 100), raw face
count, `eyes_open/2` and raw smile count — where the sharpness, face, eye
and smile terms carry their configuration weights, but the brightness term
is additionally scaled by 100, i.e. its effective weight is
`BRIGHTNESS_WEIGHT * 100`. -/
theorem C1_score_is_weighted_sum (s b : ℝ) (f e m : ℕ) :
    (composeBreakdown s b f e m).score
      = round3 (SHARPNESS_WEIGHT * normSharp s
          + (BRIGHTNESS_WEIGHT * 100.0) * normBrightness b
          + FACES_WEIGHT * (f : ℝ)
          + EYES_OPEN_WEIGHT * ((e : ℝ) / 2.0)
          + SMILE_WEIGHT * (m : ℝ)) :=
  composeBreakdown_score s b f e m

/-- C2: whenever the decoder rejects the byte string, `compute_score`
returns the per-image error value `{"error": "cannot_decode_image"}` as an
ordinary value (`Except.ok`), not as an exception — so undecodable input is
a recoverable, per-image failure. -/
theorem C2_undecodable_returns_error (env : Env) (bs : Bytes) (fc : Cascade)
    (mdir : String) (h : env.decode bs = none) :
    compute_score env bs fc mdir = .ok (.err "cannot_decode_image") := by
  unfold compute_score
  rw [h]

/-- C2 witness: a concrete undecodable input produces the error value. -/
theorem C2_witness :
    envFail.decode [] = none
      ∧ compute_score envFail [] c0 "" = .ok (.err "cannot_decode_image") :=
  ⟨rfl, C2_undecodable_returns_error envFail [] c0 "" rfl⟩

/-- C7: every field of a successfully computed breakdown is already rounded
to three decimal places (the three float fields are fixed points of
`round3`, and the three integer count fields trivially so). -/
theorem C7_all_fields_rounded (env : Env) (bs : Bytes) (fc : Cascade)
    (mdir : String) (br : Breakdown)
    (h : compute_score env bs fc mdir = .ok (.ok br)) :
    round3 br.score = br.score
      ∧ round3 br.sharpness = br.sharpness
      ∧ round3 br.brightness = br.brightness
      ∧ round3 (br.faces : ℝ) = (br.faces : ℝ)
      ∧ round3 (br.eyes_open : ℝ) = (br.eyes_open : ℝ)
      ∧ round3 (br.smiles : ℝ) = (br.smiles : ℝ) := by
  obtain ⟨s, b, f, e, m, rfl⟩ := compute_score_ok_shape env bs fc mdir br h
  refine ⟨?_, ?_, ?_, ?_, ?_, ?_⟩ <;>
    simp [composeBreakdown, round3_round3, round3_natCast]

/-- C7 witness: a concrete successful scoring run, with all six fields
fixed by `round3`. -/
theorem C7_witness :
    compute_score envOk [] c0 "" = .ok (.ok (composeBreakdown 0 0 0 0 0))
      ∧ (round3 (composeBreakdown 0 0 0 0 0).score
            = (composeBreakdown 0 0 0 0 0).score
          ∧ round3 (composeBreakdown 0 0 0 0 0).sharpness
            = (composeBreakdown 0 0 0 0 0).sharpness
          ∧ round3 (composeBreakdown 0 0 0 0 0).brightness
            = (composeBreakdown 0 0 0 0 0).brightness
          ∧ round3 ((composeBreakdown 0 0 0 0 0).faces : ℝ)
            = ((composeBreakdown 0 0 0 0 0).faces : ℝ)
          ∧ round3 ((composeBreakdown 0 0 0 0 0).eyes_open : ℝ)
            = ((composeBreakdown 0 0 0 0 0).eyes_open : ℝ)
          ∧ round3 ((composeBreakdown 0 0 0 0 0).smiles : ℝ)
            = ((composeBreakdown 0 0 0 0 0).smiles : ℝ)) :=
  ⟨rfl, C7_all_fields_rounded envOk [] c0 "" (composeBreakdown 0 0 0 0 0) rfl⟩

/-- C5 (counterexample): the eye cascade fails to load, yet startup
succeeds — so failure to load "any of the three" models is not
setup-fatal; and with the face cascade loaded, a scoring request still
fails with a cascade-initialization error, because the eye cascade is
(re)loaded inside every scoring call. -/
theorem C5_counterexample :
    load0 EYE_CASCADE = none
      ∧ startup load0 = .ok { face := some c0, eye := none, smile := none }
      ∧ compute_score envLoad0 [] c0 ""
          = .error ("Failed to load cascade: " ++ ("" ++ "/" ++ EYE_CASCADE)) :=
  ⟨rfl, rfl, rfl⟩

/-- C5 (amended): only the face cascade is a setup-time fatal prerequisite
— startup aborts exactly when the face cascade fails to load; the eye and
smile cascades are loaded anew inside every scoring call, and when such a
per-call load fails the scoring request itself raises a
cascade-initialization error. -/
theorem C5_face_cascade_only_fatal (load : String → Option Cascade) :
    (load FACE_CASCADE_FILE = none →
        startup load = .error "Failed to load face Haarcascade. Cannot continue. Check model files in /app/model.")
      ∧ (∀ c, load FACE_CASCADE_FILE = some c →
          startup load = .ok (load_cascades load))
      ∧ (∀ (env : Env) (bs : Bytes) (img : Img) (fc : Cascade) (mdir : String),
          env.decode bs = some img →
          env.load (mdir ++ "/" ++ EYE_CASCADE) = none →
          compute_score env bs fc mdir
            = .error ("Failed to load cascade: " ++ (mdir ++ "/" ++ EYE_CASCADE))) := by
  refine ⟨?_, ?_, ?_⟩
  · intro h
    unfold startup load_cascades
    simp [h]
  · intro c h
    unfold startup load_cascades
    simp [h]
  · intro env bs img fc mdir hdec hload
    simp [compute_score, hdec, detect_faces_and_features, load_cascade, hload]

/-- C5 witness: concrete loaders exercising all three parts — a missing
face cascade aborts startup, a present face cascade (with both others
missing) starts up fine, and the per-call eye-cascade load failure makes a
concrete scoring request fail. -/
theorem C5_witness :
    (loadNone FACE_CASCADE_FILE = none
        ∧ startup loadNone = .error "Failed to load face Haarcascade. Cannot continue. Check model files in /app/model.")
      ∧ (load0 FACE_CASCADE_FILE = some c0
          ∧ startup load0 = .ok (load_cascades load0))
      ∧ (envLoad0.decode [] = some 0
          ∧ envLoad0.load ("" ++ "/" ++ EYE_CASCADE) = none
          ∧ compute_score envLoad0 [] c0 ""
              = .error ("Failed to load cascade: " ++ ("" ++ "/" ++ EYE_CASCADE))) :=
  ⟨⟨rfl, (C5_face_cascade_only_fatal loadNone).1 rfl⟩,
   ⟨rfl, (C5_face_cascade_only_fatal load0).2.1 c0 rfl⟩,
   ⟨rfl, rfl,
    (C5_face_cascade_only_fatal load0).2.2 envLoad0 [] 0 c0 "" rfl rfl⟩⟩

/-- C6 (counterexample): a decodable image on which the face detector finds
zero faces, yet the detector bank raises (`RuntimeError` from
`_load_cascade`) because the eye cascade file is missing — so "never
throws" does not hold unconditionally. -/
theorem C6_counterexample :
    envNoEye.decode [] = some 0
      ∧ c0.detect (envNoEye.toGray 0) ⟨1.1, 5, (30, 30)⟩ = []
      ∧ detect_faces_and_features envNoEye 0 c0 ""
          = .error ("Failed to load cascade: " ++ ("" ++ "/" ++ EYE_CASCADE)) :=
  ⟨rfl, rfl, rfl⟩

/-- C6 (amended): provided the eye and smile cascades load successfully,
the detector bank never throws, and on an image with zero detected faces
it returns `faceCount = 0`, `eyesOpenCount = 0`, `smileCount = 0` (the
counts are naturals — list lengths — hence never negative). -/
theorem C6_zero_faces_zero_counts (env : Env) (img : Img) (fc : Cascade)
    (mdir : String) (ec sc : Cascade)
    (he : env.load (mdir ++ "/" ++ EYE_CASCADE) = some ec)
    (hs : env.load (mdir ++ "/" ++ SMILE_CASCADE) = some sc) :
    (∀ msg, detect_faces_and_features env img fc mdir ≠ .error msg)
      ∧ (fc.detect (env.toGray img) ⟨1.1, 5, (30, 30)⟩ = [] →
          detect_faces_and_features env img fc mdir = .ok ([], 0, 0)) := by
  constructor
  · intro msg hcontra
    simp [detect_faces_and_features, load_cascade, he, hs] at hcontra
  · intro hf
    simp [detect_faces_and_features, load_cascade, he, hs, hf]

/-- C6 witness: a concrete environment with both auxiliary cascades
present and a face detector that finds nothing. -/
theorem C6_witness :
    (envOk.load ("" ++ "/" ++ EYE_CASCADE) = some c0
        ∧ envOk.load ("" ++ "/" ++ SMILE_CASCADE) = some c0)
      ∧ ((∀ msg, detect_faces_and_features envOk 0 c0 "" ≠ .error msg)
          ∧ (c0.detect (envOk.toGray 0) ⟨1.1, 5, (30, 30)⟩ = [] →
              detect_faces_and_features envOk 0 c0 "" = .ok ([], 0, 0))) :=
  ⟨⟨rfl, rfl⟩, C6_zero_faces_zero_counts envOk 0 c0 "" c0 c0 rfl rfl⟩

/-- Unwinding the Step-1 loop of `score_and_save` from arbitrary
accumulator values. -/
theorem score_batch_foldl (env : Env) (penv : PilEnv) (fc : Cascade)
    (mdir : String) (files : List (String × Bytes)) (r : List TaggedResult)
    (fb : List (String × Bytes)) :
    files.foldl
      (fun acc f =>
        let contents := f.2
        let file_bytes_list := acc.2 ++ [(f.1, contents)]
        let scoring_bytes := compress_image_bytes_if_needed penv contents 700
        let res := safe_compute_score env fc mdir scoring_bytes
        (acc.1 ++ [{ filename := f.1, result := res }], file_bytes_list))
      (r, fb)
      = (r ++ files.map (score_one env penv fc mdir), fb ++ files) := by
  induction files generalizing r fb with
  | nil => simp
  | cons f fs ih =>
    simp only [List.foldl_cons, List.map_cons]
    rw [ih]
    simp [score_one, List.append_assoc]

/-- The Step-1 loop maps each file independently through `score_one` and
records the original bytes untouched. -/
theorem score_batch_eq (env : Env) (penv : PilEnv) (fc : Cascade)
    (mdir : String) (files : List (String × Bytes)) :
    score_batch env penv fc mdir files
      = (files.map (score_one env penv fc mdir), files) := by
  unfold score_batch
  rw [score_batch_foldl]
  simp

/-- C4: a failure while scoring one image never aborts the batch — the
`results` list has one entry per submitted file, in order, each tagged
with its file's name (failed items are the entries whose `result` is an
error marker), the returned `count` (`len(results)`) equals the number of
submitted files, and the original bytes of every file are retained. -/
theorem C4_batch_failures_isolated (env : Env) (penv : PilEnv) (fc : Cascade)
    (mdir : String) (files : List (String × Bytes)) :
    (score_batch env penv fc mdir files).1.length = files.length
      ∧ (score_batch env penv fc mdir files).1.map TaggedResult.filename
          = files.map Prod.fst
      ∧ (score_batch env penv fc mdir files).2 = files := by
  rw [score_batch_eq]
  refine ⟨by simp, ?_, rfl⟩
  simp only [List.map_map]
  rfl

/-- C8: batch scoring is the per-item map of a fixed pure function — each
entry of the results list is computed from that file alone (no cross-image
state), and two files with identical bytes always receive identical
results, in particular scoring the same bytes twice is bit-identical. -/
theorem C8_scoring_deterministic_per_item (env : Env) (penv : PilEnv)
    (fc : Cascade) (mdir : String) (files : List (String × Bytes)) :
    (score_batch env penv fc mdir files).1
        = files.map (score_one env penv fc mdir)
      ∧ (∀ f1 f2 : String × Bytes, f1.2 = f2.2 →
          (score_one env penv fc mdir f1).result
            = (score_one env penv fc mdir f2).result) := by
  refine ⟨by rw [score_batch_eq], ?_⟩
  · intro f1 f2 h
    simp [score_one, h]

/-- C8 witness: a concrete two-file batch where the two files share bytes
but not names, and their results coincide. -/
theorem C8_witness :
    (score_batch envOk penvFail c0 "" [("a", []), ("b", [])]).1
        = [("a", ([] : Bytes)), ("b", ([] : Bytes))].map
            (score_one envOk penvFail c0 "")
      ∧ (score_one envOk penvFail c0 "" ("a", [])).result
          = (score_one envOk penvFail c0 "" ("b", [])).result :=
  ⟨(C8_scoring_deterministic_per_item envOk penvFail c0 "" [("a", []), ("b", [])]).1,
   (C8_scoring_deterministic_per_item envOk penvFail c0 "" []).2
     ("a", []) ("b", []) rfl⟩

/-- C9: the bytes persisted for a top-ranked result are found by scanning
`file_bytes_list` for the first entry whose filename matches — with
duplicate filenames in a batch, the first uploaded file's bytes win,
regardless of which duplicate produced the score. -/
theorem C9_duplicate_filename_first_file_wins (n : String) (b : Bytes)
    (pre post : List (String × Bytes)) (hpre : ∀ p ∈ pre, p.1 ≠ n) :
    find_original_bytes n (pre ++ (n, b) :: post) = some b := by
  induction pre with
  | nil => simp [find_original_bytes]
  | cons p ps ih =>
    obtain ⟨pn, pb⟩ := p
    have hp : pn ≠ n := hpre (pn, pb) (List.mem_cons_self _ _)
    simp only [List.cons_append, find_original_bytes]
    rw [if_neg hp]
    exact ih fun q hq => hpre q (List.mem_cons_of_mem _ hq)

/-- C9 witness: two files named "dup" with different bytes — the lookup
returns the first one's bytes. -/
theorem C9_witness :
    (∀ p ∈ [("other", ([5] : Bytes))], p.1 ≠ "dup")
      ∧ find_original_bytes "dup"
          ([("other", [5])] ++ ("dup", ([1] : Bytes)) :: [("dup", [2])])
          = some [1] :=
  ⟨by decide,
   C9_duplicate_filename_first_file_wins "dup" [1] [("other", [5])]
     [("dup", [2])] (by decide)⟩

/-- C10: the pre-scoring compression step is the identity on every byte
string of at most 700*1024 bytes, and it never raises — a failing
`Image.open` or a re-encode that raises at any quality returns the
original bytes unchanged. -/
theorem C10_compress_small_is_identity (penv : PilEnv) (bs : Bytes) :
    (bs.length ≤ 700 * 1024 → compress_image_bytes_if_needed penv bs 700 = bs)
      ∧ (penv.openRGB bs = none →
          compress_image_bytes_if_needed penv bs 700 = bs)
      ∧ ((∀ img q, penv.saveJpeg img q = none) →
          compress_image_bytes_if_needed penv bs 700 = bs) := by
  refine ⟨?_, ?_, ?_⟩
  · intro h
    unfold compress_image_bytes_if_needed
    rw [if_pos h]
  · intro h
    unfold compress_image_bytes_if_needed
    split
    · rfl
    · rw [h]
  · intro h
    unfold compress_image_bytes_if_needed
    split
    · rfl
    · cases hopen : penv.openRGB bs with
      | none => rfl
      | some img =>
        have hloop : compressLoop penv img 700 85 bs = none := by
          rw [compressLoop.eq_def]
          simp [h]
        simp [hloop]

/-- C10 witness: a small input is returned unchanged even when every PIL
primitive would raise. -/
theorem C10_witness :
    ([] : Bytes).length ≤ 700 * 1024
      ∧ penvFail.openRGB [] = none
      ∧ (∀ img q, penvFail.saveJpeg img q = none)
      ∧ compress_image_bytes_if_needed penvFail [] 700 = [] :=
  ⟨by norm_num, rfl, fun _ _ => rfl,
   (C10_compress_small_is_identity penvFail []).1 (by norm_num)⟩

/-- The ranker's comparison is transitive. -/
theorem rankLE_trans : ∀ a b c : RankItem, rankLE a b → rankLE b c → rankLE a c := by
  intro a b c hab hbc
  simp only [rankLE, decide_eq_true_eq] at hab hbc ⊢
  exact le_trans hbc hab

/-- The ranker's comparison is total. -/
theorem rankLE_total : ∀ a b : RankItem, rankLE a b || rankLE b a := by
  intro a b
  simp only [rankLE, Bool.or_eq_true, decide_eq_true_eq]
  exact le_total (scoreKey b) (scoreKey a)

/-- C3: for `1 ≤ k ≤ N` (`N` the number of successfully scored results),
the ranked output has exactly `k` elements, is sorted by score descending,
consists only of input elements that carry a valid score (failed results
are excluded, not crashed on), and the underlying stable sort keeps the
original input order of any two results whose scores tie. -/
theorem C3_ranker_top_k (results : List RankItem) (k : ℕ)
    (hk1 : 1 ≤ k) (hk2 : k ≤ (results.filter hasScore).length) :
    (rank results k).length = k
      ∧ (rank results k).Pairwise (fun a b => scoreKey b ≤ scoreKey a)
      ∧ (∀ r ∈ rank results k, r ∈ results ∧ hasScore r = true)
      ∧ (∀ a b : RankItem, [a, b].Sublist (results.filter hasScore) →
          scoreKey b ≤ scoreKey a →
          [a, b].Sublist ((results.filter hasScore).mergeSort rankLE))
      ∧ rank results k = ((results.filter hasScore).mergeSort rankLE).take k := by
  have _hk := hk1
  refine ⟨?_, ?_, ?_, ?_, rfl⟩
  · unfold rank
    rw [List.length_take, List.length_mergeSort]
    exact min_eq_left hk2
  · have hsorted :=
      List.sorted_mergeSort rankLE_trans rankLE_total (results.filter hasScore)
    have hsorted' :
        ((results.filter hasScore).mergeSort rankLE).Pairwise
          (fun a b => scoreKey b ≤ scoreKey a) := by
      refine hsorted.imp ?_
      intro a b hab
      simpa [rankLE] using hab
    exact List.Pairwise.sublist (List.take_sublist k _) hsorted'
  · intro r hr
    have hmem : r ∈ (results.filter hasScore).mergeSort rankLE :=
      List.mem_of_mem_take hr
    have hmem' : r ∈ results.filter hasScore := List.mem_mergeSort.mp hmem
    exact List.mem_filter.mp hmem'
  · intro a b hsub hle
    refine List.sublist_mergeSort rankLE_trans rankLE_total ?_ hsub
    simp [List.pairwise_cons, rankLE, hle]

/-- C3 witness: on a concrete mixed list (two scored items, one failed)
with `topN = 1`, all five ranked-output properties hold. -/
theorem C3_witness :
    1 ≤ 1
      ∧ 1 ≤ (rs0.filter hasScore).length
      ∧ ((rank rs0 1).length = 1
          ∧ (rank rs0 1).Pairwise (fun a b => scoreKey b ≤ scoreKey a)
          ∧ (∀ r ∈ rank rs0 1, r ∈ rs0 ∧ hasScore r = true)
          ∧ (∀ a b : RankItem, [a, b].Sublist (rs0.filter hasScore) →
              scoreKey b ≤ scoreKey a →
              [a, b].Sublist ((rs0.filter hasScore).mergeSort rankLE))
          ∧ rank rs0 1 = ((rs0.filter hasScore).mergeSort rankLE).take 1) :=
  ⟨le_refl 1, by decide, C3_ranker_top_k rs0 1 (le_refl 1) (by decide)⟩

end FramePickr
